import Mathlib

/-
Shallow embedding of src/investing.py (class InvestingNewsExtractor).

Modelling conventions:
- Python exceptions are values of the inductive PyError; fallible code returns
  Except PyError.
- The queryable document produced by BeautifulSoup is modelled as HtmlDoc,
  a record whose fields are the results of exactly the queries the source
  performs (find_all of article cards, find of the article div, the article
  title h1's text).  A bs4 Tag is modelled with its child nodes and its
  attribute list; Python truthiness of a Tag is (children nonempty), and
  tag[key] raises KeyError when the attribute is absent.
- Fetching (selenium driver.get + page_source, followed by parsing) is an
  external capability, modelled by an oracle web : String -> Option HtmlDoc;
  none models a fetch failure (driver.get raised, html_content = None).
- The mutable session state (self.driver, driver creation and quitting) is
  threaded explicitly through CrawlState.  Each created session gets a fresh
  id; quits records which session ids were released, in order; fetches counts
  invocations of the fetch capability (driver.get).
- datetime.strptime with format "%Y-%m-%d %H:%M:%S" is modelled by strptime
  (accepting the canonical single-space form of that format, with Python's
  field ranges and datetime's year/day-of-month validation); the naive
  datetime's .timestamp() method interprets the fields in the LOCAL timezone,
  modelled by an explicit tzOffset parameter (seconds east of UTC):
  epoch = epochSeconds(fields as UTC) - tzOffset.
-/

namespace Investing

/-- Python exception classes that arise in the source. -/
inductive PyError where
  | typeError
  | attributeError
  | keyError
  | valueError
deriving DecidableEq

/-- A child node of a bs4 Tag: a paragraph element (with its get_text value)
or any other node. -/
inductive Node where
  | p (text : String)
  | other
deriving DecidableEq

/-- A bs4 Tag: its child nodes and its attribute list. -/
structure Tag where
  children : List Node
  attrs : List (String × String)
deriving DecidableEq

/-- Attribute lookup on a tag (first binding wins), as an Option. -/
def tagAttr (t : Tag) (key : String) : Option String :=
  (t.attrs.find? (fun kv => kv.1 == key)).map (fun kv => kv.2)

/-- Python truthiness of a bs4 Tag: a Tag defines len as the number of its
children, so an empty tag is falsy. -/
def truthy (t : Tag) : Bool := !t.children.isEmpty

/-- tag[key]: raises KeyError when the attribute is absent. -/
def getItem (t : Tag) (key : String) : Except PyError String :=
  match tagAttr t key with
  | some v => .ok v
  | none => .error .keyError

/-- One listing-page article card (find_all of article, data-test =
article-item): the result of find of the title link and of the publish-time
element inside it. -/
structure ArticleCard where
  link_tag : Option Tag
  time_tag : Option Tag
deriving DecidableEq

/-- The parsed document, holding the results of the queries the source runs:
the listing article cards, the div with id article, and the text of the h1
with id articleTitle (none when that h1 is absent). -/
structure HtmlDoc where
  articleItems : List ArticleCard
  articleDiv : Option Tag
  articleTitle : Option String
deriving DecidableEq

/-- A listing link as built by extract_links_from_html. -/
structure Link where
  url : String
  timestamp : String
deriving DecidableEq

/-- The fetch capability: url to parsed document, none on fetch failure. -/
def Web : Type := String → Option HtmlDoc

/-- The session state threaded through the extractor object: self.driver
(the id of the current session, none before any setup_chrome), the next
fresh session id (= number of sessions created so far), the ids quit so far
in order, and the number of driver.get invocations. -/
structure CrawlState where
  driver : Option Nat
  nextId : Nat
  quits : List Nat
  fetches : Nat
deriving DecidableEq

/-- The state right after InvestingNewsExtractor.__init__: self.driver = None. -/
def initState : CrawlState := ⟨none, 0, [], 0⟩

/-- base_url class attribute. -/
def base_url : String := "https://www.investing.com"

/-- news_pages_url class attribute, with symbol and page_number substituted. -/
def news_pages_url (symbol : String) (page_number : Nat) : String :=
  "https://www.investing.com/currencies/" ++ symbol ++ "-news/" ++ toString page_number

/-- setup_chrome: creates a fresh driver session and stores it in self.driver. -/
def setup_chrome (s : CrawlState) : CrawlState :=
  { s with driver := some s.nextId, nextId := s.nextId + 1 }

/-- The local variables of get_site_html_content at the time its finally
block runs: self, url, html_content (and e, only bound inside the except
block).  The name driver is an attribute of self, never a local. -/
def gshc_locals : List String := ["self", "url", "html_content", "e"]

/-- self.driver.quit() inside get_site_html_content's finally branch (only
reachable when the locals check succeeds; self.driver is set by then). -/
def quitCurrentDriver (s : CrawlState) : CrawlState :=
  match s.driver with
  | some d => { s with quits := s.quits ++ [d] }
  | none => s

/-- get_site_html_content: setup_chrome, driver.get(url) (counted as one
fetch; on failure html_content = None), then the finally block, which quits
the driver only if the string driver is among the function's locals. -/
def get_site_html_content (web : Web) (url : String) (s : CrawlState) :
    Option HtmlDoc × CrawlState :=
  let s1 := setup_chrome s
  let s2 := { s1 with fetches := s1.fetches + 1 }
  let html := web url
  let s3 := if gshc_locals.contains "driver" then quitCurrentDriver s2 else s2
  (html, s3)

/-- quit_chrome: self.driver.quit(); raises AttributeError when self.driver
is None. -/
def quit_chrome (s : CrawlState) : Except PyError CrawlState :=
  match s.driver with
  | none => .error .attributeError
  | some d => .ok { s with quits := s.quits ++ [d] }

/-- url = link_tag[href] if link_tag else None, with bs4 Tag truthiness and
KeyError on a missing attribute. -/
def lookup_href (c : ArticleCard) : Except PyError (Option String) :=
  match c.link_tag with
  | some lt => if truthy lt then (getItem lt "href").map some else .ok none
  | none => .ok none

/-- timestamp = time_tag[datetime] if time_tag else None. -/
def lookup_datetime (c : ArticleCard) : Except PyError (Option String) :=
  match c.time_tag with
  | some tt => if truthy tt then (getItem tt "datetime").map some else .ok none
  | none => .ok none

/-- One iteration of the card loop in extract_links_from_html: compute url,
then timestamp, then append the pair to news_data only when both are truthy
(non-None and nonempty strings). -/
def cardStep (c : ArticleCard) (acc : List Link) : Except PyError (List Link) :=
  match lookup_href c with
  | .error e => .error e
  | .ok url? =>
    match lookup_datetime c with
    | .error e => .error e
    | .ok ts? =>
      match url?, ts? with
      | some u, some t => if u ≠ "" ∧ t ≠ "" then .ok (acc ++ [⟨u, t⟩]) else .ok acc
      | _, _ => .ok acc

/-- The card loop of extract_links_from_html over all article cards. -/
def linksLoop : List ArticleCard → List Link → Except PyError (List Link)
  | [], acc => .ok acc
  | c :: rest, acc =>
    match cardStep c acc with
    | .error _e => .error _e
    | .ok acc2 => linksLoop rest acc2

/-- extract_links_from_html: BeautifulSoup(None) raises TypeError, and any
exception in the try block is caught, printed, and turned into the empty
list. -/
def extract_links_from_html (html : Option HtmlDoc) : List Link :=
  match html with
  | none => []
  | some doc =>
    match linksLoop doc.articleItems [] with
    | .ok l => l
    | .error _ => []

/-- get_news_links: for i in range(1, page_count + 1), fetch the listing page
and append all extracted links in order.  The per-page try block is inert in
the model because neither get_site_html_content nor extract_links_from_html
raises (both swallow their failures). -/
def get_news_links (web : Web) (symbol : String) (page_count : Nat)
    (s : CrawlState) : List Link × CrawlState :=
  (List.range' 1 page_count).foldl
    (fun acc i =>
      let r := get_site_html_content web (news_pages_url symbol i) acc.2
      (acc.1 ++ extract_links_from_html r.1, r.2))
    ([], s)

/-- The texts of the p tags among a div's children, in document order. -/
def pTexts (ns : List Node) : List String :=
  ns.filterMap (fun n => match n with | .p t => some t | .other => none)

/-- The accumulation loop building the article text: text starts empty and
each paragraph text is appended followed by a newline. -/
def concatParas (ts : List String) : String :=
  ts.foldl (fun acc t => acc ++ t ++ "\n") ""

/-- The dict returned by extract_content_from_news_link on success. -/
structure ArticleContent where
  content : String
  title : String
deriving DecidableEq

/-- The try block of extract_content_from_news_link after the fetch:
BeautifulSoup(None) raises TypeError; the div with id article is checked by
Python truthiness (absent or empty means the else branch returning None);
when the div is truthy, the paragraph texts are concatenated and the title
is read from the h1 with id articleTitle, whose absence makes .text raise
AttributeError. -/
def article_try_body (html : Option HtmlDoc) : Except PyError (Option ArticleContent) :=
  match html with
  | none => .error .typeError
  | some doc =>
    match doc.articleDiv with
    | some div =>
      if truthy div then
        match doc.articleTitle with
        | some t => .ok (some ⟨concatParas (pTexts div.children), t⟩)
        | none => .error .attributeError
      else .ok none
    | none => .ok none

/-- The attributes of a logging.Logger object (public API of the Python
logging module).  The name logger is not among them. -/
def loggerAttrs : List String :=
  ["name", "level", "parent", "propagate", "handlers", "disabled", "filters",
   "setLevel", "isEnabledFor", "getEffectiveLevel", "getChild", "debug",
   "info", "warning", "warn", "error", "exception", "critical", "fatal",
   "log", "findCaller", "makeRecord", "handle", "addHandler",
   "removeHandler", "hasHandlers", "callHandlers", "addFilter",
   "removeFilter", "filter"]

/-- Attribute access self.log.NAME on the Logger stored in self.log:
AttributeError when NAME is not a Logger attribute. -/
def loggerGetattr (attrName : String) : Except PyError Unit :=
  if loggerAttrs.contains attrName then .ok () else .error .attributeError

/-- extract_content_from_news_link: fetch base_url + url, run the try body;
on any exception the except branch executes self.log.logger(e), whose
attribute lookup itself raises; had the lookup succeeded, the call would log
and the function would fall through to an implicit return None. -/
def extract_content_from_news_link (web : Web) (url : String) (s : CrawlState) :
    Except PyError (Option ArticleContent) × CrawlState :=
  let r := get_site_html_content web (base_url ++ url) s
  match article_try_body r.1 with
  | .ok v => (.ok v, r.2)
  | .error _ =>
    match loggerGetattr "logger" with
    | .ok _ => (.ok none, r.2)
    | .error e2 => (.error e2, r.2)

/-- Result of datetime.datetime.strptime: the parsed naive datetime fields. -/
structure PyDateTime where
  year : Nat
  month : Nat
  day : Nat
  hour : Nat
  minute : Nat
  second : Nat
deriving DecidableEq

/-- Leap-year rule of the proleptic Gregorian calendar. -/
def isLeap (y : Nat) : Bool := y % 4 == 0 && (y % 100 != 0 || y % 400 == 0)

/-- Number of days in a month. -/
def days_in_month (y m : Nat) : Nat :=
  if m == 2 then (if isLeap y then 29 else 28)
  else if m == 4 || m == 6 || m == 9 || m == 11 then 30
  else 31

/-- Split a character list at every occurrence of a separator character
(the pieces do not contain the separator; n separators give n + 1 pieces). -/
def splitChar (sep : Char) : List Char → List (List Char)
  | [] => [[]]
  | c :: cs =>
    let r := splitChar sep cs
    if c = sep then [] :: r
    else match r with
      | h :: t => (c :: h) :: t
      | [] => [[c]]

/-- Value of a nonempty all-digit character list, none otherwise. -/
def digitsVal? : List Char → Nat → Option Nat
  | [], acc => some acc
  | c :: cs, acc =>
    if c.isDigit then digitsVal? cs (acc * 10 + (c.toNat - 48)) else none

/-- A one- or two-digit numeric field within an inclusive range, as matched
by Python's strptime patterns for m, d, H, M, S. -/
def parseField (cs : List Char) (lo hi : Nat) : Option Nat :=
  if cs.length == 0 || cs.length > 2 then none
  else match digitsVal? cs 0 with
    | some n => if lo ≤ n ∧ n ≤ hi then some n else none
    | none => none

/-- datetime.datetime.strptime(raw, percent-Y-m-d H:M:S form): parses the
canonical single-space form, with Python's field ranges (month 1..12, day
1..31, hour 0..23, minute and second 0..59, four-digit year) and the
datetime constructor's validation (year 1..9999, day within the month).
Any mismatch raises ValueError. -/
def strptimeChars (cs : List Char) : Except PyError PyDateTime :=
  match splitChar ' ' cs with
  | [dpart, tpart] =>
    (match splitChar '-' dpart, splitChar ':' tpart with
    | [ys, ms, ds], [hs, mins, ss] =>
      (match (if ys.length == 4 then digitsVal? ys 0 else none),
            parseField ms 1 12, parseField ds 1 31,
            parseField hs 0 23, parseField mins 0 59, parseField ss 0 59 with
      | some y, some m, some d, some h, some mi, some sec =>
        if 1 ≤ y ∧ y ≤ 9999 ∧ d ≤ days_in_month y m then
          .ok ⟨y, m, d, h, mi, sec⟩
        else .error .valueError
      | _, _, _, _, _, _ => .error .valueError)
    | _, _ => .error .valueError)
  | _ => .error .valueError

/-- strptime on the raw string's characters. -/
def strptime (raw : String) : Except PyError PyDateTime := strptimeChars raw.data

/-- Days before January 1 of a year, counting from year 1 (as in Python's
date.toordinal). -/
def daysBeforeYear (y : Nat) : Nat :=
  365 * (y - 1) + (y - 1) / 4 - (y - 1) / 100 + (y - 1) / 400

/-- Days in the given year before the first of the given month. -/
def daysBeforeMonth (y m : Nat) : Nat :=
  (List.range' 1 (m - 1)).foldl (fun acc mm => acc + days_in_month y mm) 0

/-- Python date.toordinal: day count with 0001-01-01 as ordinal 1. -/
def toordinal (y m d : Nat) : Nat := daysBeforeYear y + daysBeforeMonth y m + d

/-- The parsed fields read as a UTC instant, in seconds since the Unix
epoch (719163 is toordinal of 1970-01-01). -/
def epochSeconds (dt : PyDateTime) : Int :=
  ((toordinal dt.year dt.month dt.day : Int) - 719163) * 86400
    + dt.hour * 3600 + dt.minute * 60 + dt.second

/-- int(strptime(raw, fmt).timestamp() * 1000): a naive datetime's
timestamp() interprets the fields in the local timezone, whose offset east
of UTC (in seconds) is tzOffset, so the epoch value is the fields-as-UTC
epoch minus the offset.  All quantities are integral, so the float
multiplication and int truncation are exact. -/
def normalize_timestamp (tzOffset : Int) (raw : String) : Except PyError Int :=
  (strptime raw).map (fun dt => (epochSeconds dt - tzOffset) * 1000)

/-- The output dict of get_all_news_content for one article. -/
structure NewsRecord where
  symbol : String
  content : String
  url : String
  title : String
  timestamp : Int
deriving DecidableEq

/-- get_all_news_content: for each link, extract the article content, then
normalize the timestamp, then build the record by subscripting the extracted
dict.  There is no try block here: any exception (from the extractor's
broken except branch, from strptime, or from subscripting None) propagates
and aborts the loop. -/
def get_all_news_content (web : Web) (tzOffset : Int) (links : List Link)
    (symbol : String) (s : CrawlState) :
    Except PyError (List NewsRecord) × CrawlState :=
  match links with
  | [] => (.ok [], s)
  | i :: rest =>
    let r1 := extract_content_from_news_link web i.url s
    match r1.1 with
    | .error e => (.error e, r1.2)
    | .ok nc =>
      match normalize_timestamp tzOffset i.timestamp with
      | .error e => (.error e, r1.2)
      | .ok ts =>
        match nc with
        | none => (.error .typeError, r1.2)
        | some ac =>
          let r2 := get_all_news_content web tzOffset rest symbol r1.2
          match r2.1 with
          | .error e => (.error e, r2.2)
          | .ok others =>
            (.ok (⟨symbol, ac.content, i.url, ac.title, ts⟩ :: others), r2.2)

/-- main: collect the listing links, extract all article contents, then
quit_chrome, then return.  An exception from get_all_news_content or from
quit_chrome propagates. -/
def main (web : Web) (tzOffset : Int) (symbol : String) (page_count : Nat)
    (s : CrawlState) : Except PyError (List NewsRecord) × CrawlState :=
  let r1 := get_news_links web symbol page_count s
  let r2 := get_all_news_content web tzOffset r1.1 symbol r1.2
  match r2.1 with
  | .error e => (.error e, r2.2)
  | .ok data =>
    match quit_chrome r2.2 with
    | .error e => (.error e, r2.2)
    | .ok s3 => (.ok data, s3)

/-- Spec-side accessor: the href attribute of a card's title-link element. -/
def cardHref (c : ArticleCard) : Option String :=
  c.link_tag.bind (fun lt => tagAttr lt "href")

/-- Spec-side accessor: the datetime attribute of a card's publish-time
element. -/
def cardDatetime (c : ArticleCard) : Option String :=
  c.time_tag.bind (fun tt => tagAttr tt "datetime")

/-- Spec-side relation: an extracted entry matches its source card when its
url is the card's href attribute and its timestamp the card's datetime
attribute. -/
def EntryMatches (c : ArticleCard) (e : Link) : Prop :=
  cardHref c = some e.url ∧ cardDatetime c = some e.timestamp

/-- A well-formed article card: the title-link element is present and
nonempty and carries a nonempty href, and the publish-time element is
present and nonempty and carries a nonempty datetime. -/
def WellFormedCard (c : ArticleCard) : Prop :=
  (∃ lt u, c.link_tag = some lt ∧ truthy lt = true ∧
    tagAttr lt "href" = some u ∧ u ≠ "") ∧
  (∃ tt ts, c.time_tag = some tt ∧ truthy tt = true ∧
    tagAttr tt "datetime" = some ts ∧ ts ≠ "")

/-- A fully well-formed article page: one paragraph "Hello", title "T". -/
def goodArticleDoc : HtmlDoc := ⟨[], some ⟨[Node.p "Hello"], []⟩, some "T"⟩

/-- A web oracle on which only the article at relative url /b exists. -/
def webOk : Web := fun u =>
  if u = "https://www.investing.com/b" then some goodArticleDoc else none

/-- An article page whose body div is present (one paragraph) but whose
title h1 is absent. -/
def titlelessDoc : HtmlDoc := ⟨[], some ⟨[Node.p "x"], []⟩, none⟩

/-- A web oracle serving the title-less article page at relative url /t. -/
def webTitleless : Web := fun u =>
  if u = "https://www.investing.com/t" then some titlelessDoc else none

/-- An article page with two paragraphs around a non-paragraph node. -/
def paraDoc : HtmlDoc :=
  ⟨[], some ⟨[Node.p "Alpha", Node.other, Node.p "Beta"], []⟩, some "Title"⟩

/-- A web oracle serving paraDoc at relative url /art. -/
def webPara : Web := fun u =>
  if u = "https://www.investing.com/art" then some paraDoc else none

/-- An article page with no body div at all (title present). -/
def noBodyDoc : HtmlDoc := ⟨[], none, some "T"⟩

/-- A web oracle serving noBodyDoc at relative url /n. -/
def webNoBody : Web := fun u =>
  if u = "https://www.investing.com/n" then some noBodyDoc else none

/-- A well-formed listing card linking to /a. -/
def wfCard1 : ArticleCard :=
  ⟨some ⟨[Node.other], [("href", "/a")]⟩,
   some ⟨[Node.other], [("datetime", "2024-05-01 12:00:00")]⟩⟩

/-- A well-formed listing card linking to /b. -/
def wfCard2 : ArticleCard :=
  ⟨some ⟨[Node.other], [("href", "/b")]⟩,
   some ⟨[Node.other], [("datetime", "2024-05-02 13:30:00")]⟩⟩

/-- A listing card whose href attribute is present but empty. -/
def emptyHrefCard : ArticleCard :=
  ⟨some ⟨[Node.other], [("href", "")]⟩,
   some ⟨[Node.other], [("datetime", "2024-01-01 00:00:00")]⟩⟩

/-- A listing page with two well-formed cards. -/
def listingDoc : HtmlDoc := ⟨[wfCard1, wfCard2], none, none⟩

/-- A listing page with an empty-href card between two well-formed cards. -/
def listingDocWithEmpty : HtmlDoc := ⟨[wfCard1, emptyHrefCard, wfCard2], none, none⟩

/-- C1: the claim says a FetchError or absent ArticleContent makes the crawl
skip that one link and continue; in the code, get_all_news_content has no
exception handling, the failed fetch makes BeautifulSoup raise TypeError
inside extract_content_from_news_link, and its except branch raises
AttributeError, so the whole crawl aborts.  At the failing input (first
link's article fetch fails, second link is perfectly healthy) the loop
returns the AttributeError and, in particular, not the one-record list the
claim demands. -/
theorem c1_failed_article_aborts_crawl :
    (get_all_news_content webOk 0
      [⟨"/a", "2024-05-01 12:00:00"⟩, ⟨"/b", "2024-05-01 12:00:00"⟩]
      "eur-usd" initState).1 = .error .attributeError ∧
    (get_all_news_content webOk 0
      [⟨"/a", "2024-05-01 12:00:00"⟩, ⟨"/b", "2024-05-01 12:00:00"⟩]
      "eur-usd" initState).1 ≠
      .ok [⟨"eur-usd", "Hello\n", "/b", "T", 1714564800000⟩] :=
  ⟨rfl, fun h => Except.noConfusion h⟩

/-- C2: the claim says the fetch session is released exactly once on every
exit path; in the code, get_site_html_content creates a fresh session per
fetch and its cleanup check (the string driver among the function locals) is
always false, so with pageCount = 2 and every page fetch failing, two
sessions (ids 0 and 1) are created and only session 1 is ever quit: session
0 is leaked. -/
theorem c2_session_leaked :
    gshc_locals.contains "driver" = false ∧
    main (fun _ => none) 0 "eur-usd" 2 initState =
      (.ok [], { driver := some 1, nextId := 2, quits := [1], fetches := 2 }) :=
  ⟨rfl, rfl⟩

/-- C3 counterexample: the claim says a malformed timestamp makes the crawl
skip that single record and return the records of the other links; at the
concrete input (first link with timestamp "bad", second link fully healthy)
the code instead propagates the ValueError, returning no record list at all
and in particular not the one-record list built from the second link. -/
theorem c3_counterexample :
    (get_all_news_content webOk 0
      [⟨"/b", "bad"⟩, ⟨"/b", "2024-05-01 12:00:00"⟩] "eur-usd" initState).1
      = .error .valueError ∧
    (get_all_news_content webOk 0
      [⟨"/b", "bad"⟩, ⟨"/b", "2024-05-01 12:00:00"⟩] "eur-usd" initState).1 ≠
      .ok [⟨"eur-usd", "Hello\n", "/b", "T", 1714564800000⟩] :=
  ⟨rfl, fun h => Except.noConfusion h⟩

/-- C3 amended: when a link's article extraction succeeds but its raw
timestamp does not match the expected format, the ValueError propagates out
of get_all_news_content: the crawl aborts at that record, the remaining
links are not processed, and no record list is returned. -/
theorem c3_bad_timestamp_aborts_crawl (web : Web) (tz : Int) (symbol : String)
    (s : CrawlState) (i : Link) (rest : List Link)
    (v : Option ArticleContent) (s1 : CrawlState)
    (hx : extract_content_from_news_link web i.url s = (.ok v, s1))
    (hts : strptime i.timestamp = .error .valueError) :
    (get_all_news_content web tz (i :: rest) symbol s).1 = .error .valueError := by
  have hn : normalize_timestamp tz i.timestamp = .error .valueError := by
    unfold normalize_timestamp
    rw [hts]
    rfl
  simp only [get_all_news_content, hx, hn]

/-- C3 witness: a concrete link whose article extraction succeeds and whose
timestamp "bad" is malformed makes get_all_news_content return ValueError. -/
theorem c3_witness :
    (get_all_news_content webOk 0 [⟨"/b", "bad"⟩] "eur-usd" initState).1
      = .error .valueError :=
  c3_bad_timestamp_aborts_crawl webOk 0 "eur-usd" initState ⟨"/b", "bad"⟩ []
    (some ⟨"Hello\n", "T"⟩) ⟨some 0, 1, [], 1⟩ (by rfl) (by rfl)

/-- C4 counterexample: the claim says normalization is timezone-independent
and yields 1714564800000 for "2024-05-01 12:00:00"; with a local offset of
+3600 seconds (UTC+1) the code yields 1714561200000 instead, because a naive
datetime's timestamp() interprets the fields in the local timezone. -/
theorem c4_counterexample :
    normalize_timestamp 3600 "2024-05-01 12:00:00" = .ok 1714561200000 ∧
    (1714561200000 : Int) ≠ 1714564800000 := by
  constructor
  · rfl
  · decide

/-- C4 amended: normalization interprets the input as local wall-clock time:
for the reference input it equals 1714564800000 minus 1000 times the local
UTC offset in seconds, hence equals 1714564800000 exactly when the local
offset is zero. -/
theorem c4_local_time_normalization (tz : Int) :
    normalize_timestamp tz "2024-05-01 12:00:00" = .ok (1714564800000 - tz * 1000) := by
  have h : strptime "2024-05-01 12:00:00" = .ok ⟨2024, 5, 1, 12, 0, 0⟩ := by rfl
  have he : epochSeconds ⟨2024, 5, 1, 12, 0, 0⟩ = 1714564800 := by rfl
  unfold normalize_timestamp
  rw [h]
  simp only [Except.map, he]
  congr 1
  ring

/-- C5 counterexample: the claim says a crawl with pageCount = 0 returns the
empty list; the code instead raises AttributeError, because quit_chrome runs
self.driver.quit() while self.driver is still None (no fetch ever created a
session). -/
theorem c5_counterexample :
    (main (fun _ => none) 0 "eur-usd" 0 initState).1 = .error .attributeError ∧
    (main (fun _ => none) 0 "eur-usd" 0 initState).1 ≠ .ok [] :=
  ⟨rfl, fun h => Except.noConfusion h⟩

/-- C5 amended: for every web oracle, timezone and symbol, a crawl with
pageCount = 0 never invokes the fetch capability and accumulates no links
and no records (the final state is the initial one, with fetches still 0),
but instead of returning the empty list it raises AttributeError when
quit_chrome dereferences the never-created session. -/
theorem c5_page_count_zero (web : Web) (tz : Int) (symbol : String) :
    main web tz symbol 0 initState = (.error .attributeError, initState) := rfl

/-- String.join distributes over cons. -/
theorem join_cons_str (x : String) (l : List String) :
    String.join (x :: l) = x ++ String.join l := by
  apply String.ext
  simp [String.join_eq, String.data_append]

/-- The text-accumulation loop started from any prefix equals that prefix
followed by the joined newline-terminated paragraph texts. -/
theorem foldl_append_eq (ts : List String) (a : String) :
    ts.foldl (fun acc t => acc ++ t ++ "\n") a
      = a ++ String.join (ts.map (fun p => p ++ "\n")) := by
  induction ts generalizing a with
  | nil => simp [String.join, String.append_empty]
  | cons t ts ih =>
    simp only [List.foldl_cons, List.map_cons, join_cons_str]
    rw [ih]
    simp [String.append_assoc]

/-- The source's paragraph-concatenation loop computes the paragraph texts
joined each with a trailing newline. -/
theorem concatParas_eq_join (ts : List String) :
    concatParas ts = String.join (ts.map (fun p => p ++ "\n")) := by
  unfold concatParas
  rw [foldl_append_eq, String.empty_append]

/-- A div with at least one paragraph child is truthy. -/
theorem truthy_of_pTexts_pos (div : Tag) (hP : 0 < (pTexts div.children).length) :
    truthy div = true := by
  unfold truthy
  cases hc : div.children with
  | nil => rw [hc] at hP; simp [pTexts] at hP
  | cons n ns => simp

/-- C7: for an article page whose body div holds P paragraph elements (P at
least one, so the div is truthy) and whose title heading is present, the
extracted content equals the P paragraph texts in document order, each
followed by a newline (with a trailing newline after the last). -/
theorem c7_content_is_joined_paragraphs (web : Web) (url : String)
    (s : CrawlState) (doc : HtmlDoc) (div : Tag) (title : String)
    (hweb : web (base_url ++ url) = some doc)
    (hdiv : doc.articleDiv = some div)
    (htitle : doc.articleTitle = some title)
    (hP : 0 < (pTexts div.children).length) :
    (extract_content_from_news_link web url s).1 =
      .ok (some ⟨String.join ((pTexts div.children).map (fun p => p ++ "\n")),
                 title⟩) := by
  have htr : truthy div = true := truthy_of_pTexts_pos div hP
  simp only [extract_content_from_news_link, get_site_html_content, hweb,
    article_try_body, hdiv, htr, htitle, if_true, concatParas_eq_join]

/-- C7 witness: a concrete article page with paragraphs Alpha and Beta
around a non-paragraph node yields content Alpha newline Beta newline. -/
theorem c7_witness :
    (extract_content_from_news_link webPara "/art" initState).1 =
      .ok (some ⟨String.join ((pTexts [Node.p "Alpha", Node.other, Node.p "Beta"]).map
                   (fun p => p ++ "\n")), "Title"⟩) :=
  c7_content_is_joined_paragraphs webPara "/art" initState paraDoc
    ⟨[Node.p "Alpha", Node.other, Node.p "Beta"], []⟩ "Title"
    (by rfl) (by rfl) (by rfl) (by decide)

/-- C8: for an article page that contains no body div at all, content
extraction returns ok none: the absent value, not an error and not a
placeholder record. -/
theorem c8_no_body_returns_none (web : Web) (url : String) (s : CrawlState)
    (doc : HtmlDoc)
    (hweb : web (base_url ++ url) = some doc)
    (hdiv : doc.articleDiv = none) :
    (extract_content_from_news_link web url s).1 = .ok none := by
  simp only [extract_content_from_news_link, get_site_html_content, hweb,
    article_try_body, hdiv]

/-- C8 witness: the concrete article page without a body div yields ok none. -/
theorem c8_witness :
    (extract_content_from_news_link webNoBody "/n" initState).1 = .ok none :=
  c8_no_body_returns_none webNoBody "/n" initState noBodyDoc (by rfl) (by rfl)

/-- C10: the name logger is not an attribute of a logging.Logger, so the
except branch of extract_content_from_news_link itself raises: whenever the
try body throws (for any reason, including a present body div with an
absent title heading), the method propagates AttributeError to its caller
instead of logging and returning the absent value. -/
theorem c10_except_branch_raises :
    loggerGetattr "logger" = .error .attributeError ∧
    ∀ (web : Web) (url : String) (s : CrawlState) (e : PyError),
      article_try_body (get_site_html_content web (base_url ++ url) s).1 = .error e →
      (extract_content_from_news_link web url s).1 = .error .attributeError := by
  refine ⟨rfl, ?_⟩
  intro web url s e hbody
  simp only [extract_content_from_news_link, hbody]
  rfl

/-- C10 witness: at the concrete article page whose body div is present but
whose title h1 is absent, the try body throws and the method returns
AttributeError. -/
theorem c10_witness :
    (extract_content_from_news_link webTitleless "/t" initState).1 =
      .error .attributeError :=
  c10_except_branch_raises.2 webTitleless "/t" initState .attributeError (by rfl)

/-- On a list of well-formed cards, the card loop never throws and appends,
in order, one entry per card whose url and timestamp are exactly the card's
href and datetime attributes. -/
theorem linksLoop_wf (items : List ArticleCard) :
    ∀ acc : List Link, (∀ c ∈ items, WellFormedCard c) →
    ∃ entries, linksLoop items acc = .ok (acc ++ entries) ∧
      List.Forall₂ EntryMatches items entries := by
  induction items with
  | nil => exact fun acc _ => ⟨[], by simp [linksLoop], List.Forall₂.nil⟩
  | cons c rest ih =>
    intro acc hwf
    obtain ⟨⟨lt, u, hl, htl, hu, hune⟩, ⟨tt, ts, ht, htt, hts, htne⟩⟩ :=
      hwf c (by simp)
    have hstep : cardStep c acc = .ok (acc ++ [⟨u, ts⟩]) := by
      unfold cardStep lookup_href lookup_datetime
      rw [hl, ht]
      simp [htl, htt, getItem, hu, hts, Except.map, hune, htne]
    obtain ⟨entries, heq, hf⟩ :=
      ih (acc ++ [⟨u, ts⟩]) (fun d hd => hwf d (by simp [hd]))
    refine ⟨⟨u, ts⟩ :: entries, ?_, ?_⟩
    · simp only [linksLoop, hstep]
      rw [heq]
      simp
    · exact List.Forall₂.cons
        ⟨by simp [cardHref, hl, hu], by simp [cardDatetime, ht, hts]⟩ hf

/-- C6: for a listing page whose article cards are all well-formed (title
link and publish-time elements present, each carrying a nonempty attribute),
link extraction returns exactly one entry per card, in document order, with
each entry's url equal to the card's href attribute and its timestamp equal
to the card's datetime attribute (the Forall₂ forces equal lengths and
pointwise correspondence in order). -/
theorem c6_extract_links_wellformed (doc : HtmlDoc)
    (hwf : ∀ c ∈ doc.articleItems, WellFormedCard c) :
    List.Forall₂ EntryMatches doc.articleItems
      (extract_links_from_html (some doc)) := by
  obtain ⟨entries, heq, hf⟩ := linksLoop_wf doc.articleItems [] hwf
  simp only [extract_links_from_html, heq]
  simpa using hf

/-- C6 witness: a concrete listing page with two well-formed cards extracts
two matching entries in order. -/
theorem c6_witness :
    List.Forall₂ EntryMatches listingDoc.articleItems
      (extract_links_from_html (some listingDoc)) :=
  c6_extract_links_wellformed listingDoc (by
    intro c hc
    have hc2 : c = wfCard1 ∨ c = wfCard2 := by
      simpa [listingDoc] using hc
    rcases hc2 with h | h <;> subst h
    · exact ⟨⟨_, _, rfl, rfl, rfl, by decide⟩, ⟨_, _, rfl, rfl, rfl, by decide⟩⟩
    · exact ⟨⟨_, _, rfl, rfl, rfl, by decide⟩, ⟨_, _, rfl, rfl, rfl, by decide⟩⟩)

/-- A card whose title-link and publish-time elements are both present and
truthy with both attributes present, but at least one attribute empty, is a
no-op for the card loop: no entry is appended and no exception is raised. -/
theorem cardStep_skip (c : ArticleCard) (lt tt : Tag) (u t : String)
    (hl : c.link_tag = some lt) (htl : truthy lt = true)
    (hu : tagAttr lt "href" = some u)
    (ht : c.time_tag = some tt) (htt : truthy tt = true)
    (hts : tagAttr tt "datetime" = some t)
    (hempty : u = "" ∨ t = "") (acc : List Link) :
    cardStep c acc = .ok acc := by
  unfold cardStep lookup_href lookup_datetime
  rw [hl, ht]
  have hcond : ¬(u ≠ "" ∧ t ≠ "") := by
    rcases hempty with h | h <;> simp [h]
  simp [htl, htt, getItem, hu, hts, Except.map, hcond]

/-- Removing a no-op card from anywhere in the card list leaves the card
loop's outcome unchanged. -/
theorem linksLoop_skip (c : ArticleCard) (hstep : ∀ a, cardStep c a = .ok a) :
    ∀ (pre post : List ArticleCard) (acc : List Link),
    linksLoop (pre ++ c :: post) acc = linksLoop (pre ++ post) acc := by
  intro pre
  induction pre with
  | nil =>
    intro post acc
    simp only [List.nil_append, linksLoop, hstep]
  | cons p pre ih =>
    intro post acc
    simp only [List.cons_append, linksLoop]
    cases h : cardStep p acc with
    | error e => rfl
    | ok a2 => exact ih post a2

/-- C9: link extraction skips a card not only when a sub-element is missing
but also when the href or datetime attribute is present with an empty-string
value: such a card contributes zero entries, the result being exactly the
extraction of the same page with that card removed. -/
theorem c9_empty_attr_card_skipped (doc : HtmlDoc) (pre post : List ArticleCard)
    (c : ArticleCard) (lt tt : Tag) (u t : String)
    (hitems : doc.articleItems = pre ++ c :: post)
    (hl : c.link_tag = some lt) (htl : truthy lt = true)
    (hu : tagAttr lt "href" = some u)
    (ht : c.time_tag = some tt) (htt : truthy tt = true)
    (hts : tagAttr tt "datetime" = some t)
    (hempty : u = "" ∨ t = "") :
    extract_links_from_html (some doc) =
      extract_links_from_html (some ⟨pre ++ post, doc.articleDiv, doc.articleTitle⟩) := by
  simp only [extract_links_from_html, hitems]
  rw [linksLoop_skip c
    (fun a => cardStep_skip c lt tt u t hl htl hu ht htt hts hempty a) pre post []]

/-- C9 witness: on a concrete listing page whose middle card has an empty
href value, extraction equals the extraction of the page without that card. -/
theorem c9_witness :
    extract_links_from_html (some listingDocWithEmpty) =
      extract_links_from_html (some ⟨[wfCard1] ++ [wfCard2], none, none⟩) :=
  c9_empty_attr_card_skipped listingDocWithEmpty [wfCard1] [wfCard2] emptyHrefCard
    ⟨[Node.other], [("href", "")]⟩ ⟨[Node.other], [("datetime", "2024-01-01 00:00:00")]⟩
    "" "2024-01-01 00:00:00" rfl rfl rfl rfl rfl rfl rfl (Or.inl rfl)

end Investing
